import Mathlib

/-!
Shallow embedding of `pdssp-labtools` (files `src/labtools/ias/psup.py` and
`src/labtools/ias/transformers/omega_cube.py`) and proofs about it.

Numeric fields that the Python code converts with `float(...)` are modelled
as rationals (`ℚ`), with Python's `%` on a positive divisor modelled exactly
(result carries the sign of the divisor).  Filesystem state and network
replies are passed explicitly; `print` output that a claim mentions is
returned as data.
-/

namespace Labtools

/-! ### Longitude normalization (`OMEGA_CUBE_STAC_Transformer.get_bbox`) -/

/-- Python's `x % y` for a positive divisor `y`: `x - y * floor (x / y)`,
which lies in `[0, y)`.  This is the `% 360.0` of `get_bbox`. -/
def pymod (x y : ℚ) : ℚ := x - y * ⌊x / y⌋

/-- The bounding-box longitude normalization of `get_bbox`
(`omega_cube.py` lines 117 and 119): `(lon + 180.0) % 360.0 - 180.0`. -/
def normalizeLon (lon : ℚ) : ℚ := pymod (lon + 180) 360 - 180

lemma pymod_eq_fract (x : ℚ) {y : ℚ} (hy : y ≠ 0) :
    pymod x y = y * Int.fract (x / y) := by
  unfold pymod Int.fract
  field_simp

lemma pymod_nonneg (x : ℚ) {y : ℚ} (hy : 0 < y) : 0 ≤ pymod x y := by
  rw [pymod_eq_fract x hy.ne']
  exact mul_nonneg hy.le (Int.fract_nonneg _)

lemma pymod_lt (x : ℚ) {y : ℚ} (hy : 0 < y) : pymod x y < y := by
  rw [pymod_eq_fract x hy.ne']
  calc y * Int.fract (x / y) < y * 1 :=
        (mul_lt_mul_left hy).mpr (Int.fract_lt_one _)
    _ = y := mul_one y

lemma normalizeLon_mem (L : ℚ) : -180 ≤ normalizeLon L ∧ normalizeLon L < 180 := by
  have h0 : (0:ℚ) < 360 := by norm_num
  have h1 := pymod_nonneg (L + 180) h0
  have h2 := pymod_lt (L + 180) h0
  unfold normalizeLon
  constructor <;> linarith

lemma normalizeLon_fixed {v : ℚ} (h1 : -180 ≤ v) (h2 : v < 180) :
    normalizeLon v = v := by
  have hfloor : ⌊(v + 180) / 360⌋ = 0 := by
    rw [Int.floor_eq_zero_iff]
    constructor
    · rw [le_div_iff₀ (by norm_num : (0:ℚ) < 360)]
      linarith
    · rw [div_lt_iff₀ (by norm_num : (0:ℚ) < 360)]
      linarith
  unfold normalizeLon pymod
  rw [hfloor]
  push_cast
  ring

/-! ### Path helpers (models of `str.split` and `pathlib.Path` accessors) -/

/-- Characters after the last `sep`; models `url.split(sep)[-1]` and, for a
path, `Path(p).name`. -/
def lastSegAux (sep : Char) : List Char → List Char → List Char
  | [], acc => acc
  | c :: rest, acc =>
      if c = sep then lastSegAux sep rest [] else lastSegAux sep rest (acc ++ [c])

/-- Final `/`-separated segment of a string: `url.split('/')[-1]`, also
`Path(p).name`. -/
def lastSegment (s : String) : String := ⟨lastSegAux '/' s.data []⟩

/-- Model of `Path(name).stem` on a final path component: the component
without its last dot-suffix (a leading dot does not start a suffix). -/
def stemOfName (name : List Char) : List Char :=
  match (name.reverse).dropWhile (· ≠ '.') with
  | [] => name
  | _ :: rest => if rest = [] then name else rest.reverse

/-- Model of `Path(p).stem`: the stem of the final path component. -/
def stem (p : String) : String := ⟨stemOfName (lastSegAux '/' p.data [])⟩

/-- Model of `Path(p).parent` rendered as a string. -/
def parentDir (p : String) : String :=
  match (p.data.reverse).dropWhile (· ≠ '/') with
  | [] => "."
  | _ :: rest => ⟨rest.reverse⟩

/-! ### Transformer-side data model (`omega_cube.py`) -/

/-- The closed object-type enumeration tagging which kind of catalog entity
is being produced (spec section 3; the Python side carries it as the strings
compared in the extension accessors). -/
inductive ObjectType
  | item
  | collection
  | catalog
deriving DecidableEq, Repr

/-- The fields of an `OMEGA_Cube_Record` (pydantic model of
`labtools.ias.schemas.omega_cube`) that the transformer operations under
proof read, with `float(...)`-converted fields as rationals.  `objectType`
is the tag that `metadata_factory.get_object_type` reports for the record. -/
structure OMEGA_Cube_Record where
  download_nc : String
  download_sav : String
  westernmost_longitude : ℚ
  easternmost_longitude : ℚ
  minimum_latitude : ℚ
  maximum_latitude : ℚ
  objectType : ObjectType
deriving DecidableEq, Repr

/-- Modelled from the spec: `metadata_factory.get_object_type` (module
`labtools.schemas.factory`, absent from the excerpt) returns the ObjectType
tag of a typed metadata object. -/
def get_object_type (m : OMEGA_Cube_Record) : ObjectType := m.objectType

/-- Modelled from the spec: the caller-supplied Definition object
(`labtools.definitions`, absent from the excerpt) carries configuration not
derivable from the record; `get_processing_fields` reads its
`processing_level`. -/
structure Definition where
  processing_level : Option String
deriving DecidableEq, Repr

/-- The `InvalidModelObjectTypeError` raised by the extension accessors. -/
inductive TransformerError
  | invalidModelObjectType (t : ObjectType)
deriving DecidableEq, Repr

/-- `OMEGA_CUBE_STAC_Transformer.get_bbox` (`omega_cube.py` lines 115-121):
west and east longitudes normalized, latitudes passed through. -/
def get_bbox (m : OMEGA_Cube_Record) : List ℚ :=
  [normalizeLon m.westernmost_longitude,
   m.minimum_latitude,
   normalizeLon m.easternmost_longitude,
   m.maximum_latitude]

/-- `OMEGA_CUBE_STAC_Transformer.get_geometry` (`omega_cube.py` lines
96-110).  `get_netcdf_footprint` (module `labtools.ias.netcdf`, absent from
the excerpt) is a parameter, as is filesystem existence; the second
component of the result collects the warning lines the source prints.
An empty `data_path` string is falsy in Python, like `None`. -/
def get_geometry {α : Type} (get_netcdf_footprint : String → Except String α)
    (file_exists : String → Bool) (m : OMEGA_Cube_Record)
    (data_path : Option String) : Option α × List String :=
  match data_path with
  | none => (none, [])
  | some dp =>
      if dp = "" then (none, [])
      else
        let netcdf_file := dp ++ "/data/" ++ lastSegment m.download_nc
        if file_exists netcdf_file then
          match get_netcdf_footprint netcdf_file with
          | .ok g => (some g, [])
          | .error e =>
              (none,
               [e,
                "Unable to extract footprint geometry from source NetCDF file: "
                  ++ netcdf_file])
        else
          (none, ["Source data file not found: " ++ netcdf_file])

/-- `OMEGA_CUBE_STAC_Transformer.get_processing_fields` (`omega_cube.py`
lines 228-238): `collection` yields the processing-level mapping, `item`
yields an empty mapping, anything else raises
`InvalidModelObjectTypeError`. -/
def get_processing_fields (m : OMEGA_Cube_Record) (definition : Definition) :
    Except TransformerError (List (String × Option String)) :=
  if get_object_type m = .collection then
    .ok [("processing:level", definition.processing_level)]
  else if get_object_type m = .item then
    .ok []
  else
    .error (.invalidModelObjectType (get_object_type m))

/-! ### Harvest pipeline data model (`psup.py`) -/

/-- A raw product record as returned by the service: an untyped mapping of
source-schema fields. -/
abbrev RawRecord := List (String × String)

/-- One parsed service reply, already JSON-decoded: HTTP-level success flag
(`r.ok`) and the values of the `total` and `data` keys when present. -/
structure PsupResponse where
  ok : Bool
  total : Option Int
  data : Option (List RawRecord)
deriving DecidableEq, Repr

/-- The `PSUP_Collection` pydantic model of `psup.py` lines 11-14. -/
structure PSUP_Collection where
  id : String
  schema_name : String
  n_products : Int
deriving DecidableEq, Repr

/-- The persisted source-collection document of `psup.py` lines 55-62:
collection metadata plus the raw product records. -/
structure SourceDoc where
  collection : PSUP_Collection
  products : List RawRecord
deriving DecidableEq, Repr

/-- The local filesystem, restricted to source-collection documents:
an association of paths to written documents. -/
abbrev FS := List (String × SourceDoc)

def fsExists (fs : FS) (path : String) : Bool := (fs.lookup path).isSome

def fsWrite (fs : FS) (path : String) (doc : SourceDoc) : FS := (path, doc) :: fs

/-- A Python-level failure of `download_collection`:
`invalidResponse` is the `raise Exception(...)` of `psup.py` lines 39 and 49;
`nameError` is the `NameError` raised when an unbound local is used (the
fall-through after the un-raised `Exception(...)` on lines 37 and 47). -/
inductive PyError
  | invalidResponse (msg : String)
  | nameError (name : String)
deriving DecidableEq, Repr

/-- Observable outcome of a `download_collection` call. -/
inductive DCOutcome
  | alreadyExists
  | wrote (path : String)
  | raised (e : PyError)
deriving DecidableEq, Repr

/-- Result of `download_collection`: the filesystem after the call, the
`limit` parameter of each network GET issued (in order), and the outcome. -/
structure DCResult where
  fs : FS
  queries : List Int
  outcome : DCOutcome
deriving DecidableEq, Repr

/-- `download_collection` (`psup.py` lines 16-66).  The service is a
function from the `limit` query parameter to a decoded reply.  Faithful to
the source, the two inner `Exception('Invalid PSUP response: no "..." key
found.')` constructions on lines 37 and 47 are NOT raised: control falls
through and the subsequent use of the unbound local (`n_products` on line
41, `records` on line 61) raises a `NameError` instead.  The over-13000
product-count warning (lines 33-35) only prints and is not modelled. -/
def download_collection (collection_id : String) (service : Int → PsupResponse)
    (metadata_schema : String) (output_dir : String) (overwrite : Bool)
    (fs : FS) : DCResult :=
  let basename := stem output_dir
  let source_collection_file := output_dir ++ "/" ++ basename ++ ".json"
  if fsExists fs source_collection_file && !overwrite then
    { fs := fs, queries := [], outcome := .alreadyExists }
  else
    let r := service 0
    if r.ok then
      match r.total with
      | some n_products =>
          let r2 := service n_products
          if r2.ok then
            match r2.data with
            | some records =>
                let doc : SourceDoc :=
                  { collection :=
                      { id := collection_id,
                        schema_name := metadata_schema,
                        n_products := n_products },
                    products := records }
                { fs := fsWrite fs source_collection_file doc,
                  queries := [0, n_products],
                  outcome := .wrote source_collection_file }
            | none =>
                { fs := fs, queries := [0, n_products],
                  outcome := .raised (.nameError "records") }
          else
            { fs := fs, queries := [0, n_products],
              outcome := .raised (.invalidResponse "Invalid PSUP response.") }
      | none =>
          { fs := fs, queries := [0],
            outcome := .raised (.nameError "n_products") }
    else
      { fs := fs, queries := [0],
        outcome := .raised (.invalidResponse "Invalid PSUP response.") }

/-! ### Reading products back and downloading data files (`psup.py`) -/

/-- The loop of `read_products_metadata` (`psup.py` lines 102-110): parse
records in order, returning `none` at the first record that fails (the
source prints the error and record and bare-`return`s `None`). -/
def parseProducts {μ : Type} (parse : RawRecord → Except String μ) :
    List RawRecord → Option (List μ)
  | [] => some []
  | r :: rest =>
      match parse r with
      | .ok m =>
          match parseProducts parse rest with
          | some ms => some (m :: ms)
          | none => none
      | .error _ => none

/-- `read_products_metadata` (`psup.py` lines 87-112), reading from an
already-decoded source-collection document.
`factory.create_metadata_object` (module `labtools.schemas.factory`, absent
from the excerpt) is a parameter taking the raw record, the schema name and
the object-type string `"item"`; per the spec it either fully parses the
record or fails. -/
def read_products_metadata {μ : Type}
    (create_metadata_object : RawRecord → String → String → Except String μ)
    (doc : SourceDoc) : Option (List μ) :=
  let schema_name := doc.collection.schema_name
  parseProducts (fun r => create_metadata_object r schema_name "item") doc.products

/-- Modelled from the spec: a typed product metadata object exposes
`get_download_url`, resolving the product's download URL (the method called
on `psup.py` line 129; the schema classes are absent from the excerpt). -/
structure ProductMetadata where
  download_url : String
deriving DecidableEq, Repr

/-- What `download_data_files` prints for one product after
`'Downloading {fname} ...'`. -/
inductive DLReport
  | done (fname : String)
  | fileExists (fname : String)
deriving DecidableEq, Repr

/-- State threaded through the per-product loop of `download_data_files`:
the set of file paths present under the `data/` directory, and the reports
emitted so far. -/
structure DDFState where
  dataFiles : List String
  reports : List DLReport
deriving DecidableEq, Repr

/-- One iteration of the loop of `download_data_files` (`psup.py` lines
124-152).  Faithful to the source, the `urlretrieve(url, product_path)`
call on line 145 is commented out: the fetch branch prints `DONE` without
creating any file, so `dataFiles` is never changed. -/
def download_data_files_step (data_dir : String) (overwrite : Bool)
    (st : DDFState) (pm : ProductMetadata) : DDFState :=
  let product_fname := lastSegment pm.download_url
  let product_path := data_dir ++ "/" ++ product_fname
  if !(product_path ∈ st.dataFiles : Bool) || overwrite then
    { dataFiles := st.dataFiles, reports := st.reports ++ [.done product_fname] }
  else
    { dataFiles := st.dataFiles, reports := st.reports ++ [.fileExists product_fname] }

/-- The `MAX_N_PRODUCTS` batching cap of `psup.py` line 117. -/
def MAX_N_PRODUCTS : Nat := 10

/-- Outcome of `download_data_files`: either the early `'No products
found'` return (parse failure or empty list, both falsy), or the final
loop state. -/
inductive DDFOutcome
  | noProducts
  | processed (st : DDFState)
deriving DecidableEq, Repr

/-- `download_data_files` (`psup.py` lines 114-152).  Parses the stored
records, truncates to `MAX_N_PRODUCTS`, and runs the per-product loop with
the `data/` directory sibling to the source-collection file.  Directory
creation (line 139) has no modelled effect. -/
def download_data_files
    (create_metadata_object : RawRecord → String → String → Except String ProductMetadata)
    (source_collection_file : String) (doc : SourceDoc)
    (dataFiles : List String) (overwrite : Bool) : DDFOutcome :=
  match read_products_metadata create_metadata_object doc with
  | none => .noProducts
  | some products =>
      if products = [] then .noProducts
      else
        let data_dir := parentDir source_collection_file ++ "/data"
        .processed
          ((products.take MAX_N_PRODUCTS).foldl
            (download_data_files_step data_dir overwrite)
            { dataFiles := dataFiles, reports := [] })

/-! ### Concrete fixtures used by counterexamples and witnesses -/

/-- An OMEGA cube record tagged as an `item`. -/
def recItemEx : OMEGA_Cube_Record :=
  { download_nc := "https://psup.example/files/ORB0018_6.nc",
    download_sav := "https://psup.example/files/ORB0018_6.sav",
    westernmost_longitude := 350,
    easternmost_longitude := 10,
    minimum_latitude := -5,
    maximum_latitude := 5,
    objectType := .item }

/-- The same record tagged as a `collection`. -/
def recCollectionEx : OMEGA_Cube_Record := { recItemEx with objectType := .collection }

/-- A definition supplying a processing level. -/
def defEx : Definition := { processing_level := some "L2" }

/-- An extractor that always fails. -/
def extractFailEx : String → Except String Unit := fun _ => .error "boom"

/-- A filesystem-existence test on which no file exists. -/
def noFileEx : String → Bool := fun _ => false

/-- A filesystem-existence test on which every file exists. -/
def allFilesEx : String → Bool := fun _ => true

/-! ### Claims about the longitude normalization and `get_bbox` -/

/-- C2 (counterexample): at longitude `L = 180`, the normalization
`((L + 180) mod 360) - 180` yields `-180`, which is NOT in the half-open
range `(-180, 180]` claimed by the spec. -/
theorem C2_counterexample :
    normalizeLon 180 = -180 ∧ ¬(-180 < normalizeLon 180 ∧ normalizeLon 180 ≤ 180) := by
  have h : normalizeLon 180 = -180 := by
    norm_num [normalizeLon, pymod]
  refine ⟨h, ?_⟩
  rw [h]
  norm_num

/-- C2 (amended): for every longitude `L`, the bounding-box normalization
`((L + 180) mod 360) - 180` used by `get_bbox` lies in the half-open
canonical range `[-180, 180)` (closed at `-180`, open at `180`). -/
theorem C2_normalization_range (L : ℚ) :
    -180 ≤ normalizeLon L ∧ normalizeLon L < 180 :=
  normalizeLon_mem L

/-- C7: the bounding-box longitude normalization is idempotent — applying
it twice yields the same result as applying it once. -/
theorem C7_normalization_idempotent (L : ℚ) :
    normalizeLon (normalizeLon L) = normalizeLon L :=
  normalizeLon_fixed (normalizeLon_mem L).1 (normalizeLon_mem L).2

/-- C10: `get_bbox` passes the record's latitudes through unchanged and
unclamped — the second and fourth bbox components equal the record's
minimum and maximum latitude — while only the two longitude components
(first and third) are transformed, by `normalizeLon`. -/
theorem C10_bbox_latitudes_passthrough (m : OMEGA_Cube_Record) :
    (get_bbox m).length = 4 ∧
    (get_bbox m).get? 1 = some m.minimum_latitude ∧
    (get_bbox m).get? 3 = some m.maximum_latitude ∧
    (get_bbox m).get? 0 = some (normalizeLon m.westernmost_longitude) ∧
    (get_bbox m).get? 2 = some (normalizeLon m.easternmost_longitude) := by
  simp [get_bbox]

/-! ### Claim about `get_processing_fields` -/

/-- C3 (counterexample): invoking `get_processing_fields` on a record of
ObjectType `item` does NOT raise the invalid-object-type error — it
returns an empty mapping. -/
theorem C3_counterexample :
    get_processing_fields recItemEx defEx = .ok [] := rfl

/-- C3 (amended): `get_processing_fields` returns an empty mapping for
ObjectType `item` (without raising), succeeds with a non-empty mapping
holding the definition's processing level for ObjectType `collection`, and
raises the invalid-object-type error only for ObjectType `catalog`. -/
theorem C3_processing_fields_by_object_type (m : OMEGA_Cube_Record) (d : Definition) :
    (get_object_type m = .item → get_processing_fields m d = .ok []) ∧
    (get_object_type m = .collection →
      ∃ fields, get_processing_fields m d = .ok fields ∧ fields ≠ []) ∧
    (get_object_type m = .catalog →
      get_processing_fields m d = .error (.invalidModelObjectType .catalog)) := by
  refine ⟨?_, ?_, ?_⟩ <;> intro h <;> simp [get_processing_fields, h]

/-- C3 (witness): the amended claim at concrete inputs — an item record
yields the empty mapping and a collection record with a supplied
processing level yields a non-empty mapping. -/
theorem C3_witness :
    get_processing_fields recItemEx defEx = .ok [] ∧
    ∃ fields, get_processing_fields recCollectionEx defEx = .ok fields ∧ fields ≠ [] :=
  ⟨(C3_processing_fields_by_object_type recItemEx defEx).1 rfl,
   (C3_processing_fields_by_object_type recCollectionEx defEx).2.1 rfl⟩

/-! ### Claim about `get_geometry` -/

/-- C8: `get_geometry`, a total function, returns null (together with the
diagnosable warning lines printed by the source) both when the referenced
auxiliary NetCDF file is missing and when footprint extraction fails. -/
theorem C8_get_geometry_returns_null {α : Type}
    (extract : String → Except String α) (file_exists : String → Bool)
    (m : OMEGA_Cube_Record) (dp : String) (hdp : dp ≠ "") :
    (file_exists (dp ++ "/data/" ++ lastSegment m.download_nc) = false →
      get_geometry extract file_exists m (some dp) =
        (none, ["Source data file not found: " ++
          (dp ++ "/data/" ++ lastSegment m.download_nc)])) ∧
    (∀ e, file_exists (dp ++ "/data/" ++ lastSegment m.download_nc) = true →
      extract (dp ++ "/data/" ++ lastSegment m.download_nc) = .error e →
      get_geometry extract file_exists m (some dp) =
        (none, [e, "Unable to extract footprint geometry from source NetCDF file: " ++
          (dp ++ "/data/" ++ lastSegment m.download_nc)])) := by
  constructor
  · intro hmiss
    simp [get_geometry, hdp, hmiss]
  · intro e hfound herr
    simp [get_geometry, hdp, hfound, herr]

/-- C8 (witness): the missing-file and failing-extractor cases evaluated at
concrete inputs. -/
theorem C8_witness :
    get_geometry extractFailEx noFileEx recItemEx (some "out") =
      (none, ["Source data file not found: " ++
        ("out" ++ "/data/" ++ lastSegment recItemEx.download_nc)]) ∧
    get_geometry extractFailEx allFilesEx recItemEx (some "out") =
      (none, ["boom", "Unable to extract footprint geometry from source NetCDF file: " ++
        ("out" ++ "/data/" ++ lastSegment recItemEx.download_nc)]) :=
  ⟨(C8_get_geometry_returns_null extractFailEx noFileEx recItemEx "out" (by decide)).1 rfl,
   (C8_get_geometry_returns_null extractFailEx allFilesEx recItemEx "out" (by decide)).2
     "boom" rfl rfl⟩

/-! ### Fixtures for the harvest-pipeline claims -/

/-- A service whose HTTP-ok reply lacks the `total` key. -/
def serviceNoTotal : Int → PsupResponse := fun _ => { ok := true, total := none, data := some [] }

/-- A service whose HTTP-ok reply lacks the `data` key. -/
def serviceNoData : Int → PsupResponse := fun _ => { ok := true, total := some 2, data := none }

/-- A service whose requests fail at the HTTP level. -/
def serviceDown : Int → PsupResponse := fun _ => { ok := false, total := none, data := none }

/-- A well-behaved empty service. -/
def serviceEmpty : Int → PsupResponse := fun _ => { ok := true, total := some 0, data := some [] }

/-- A source-collection document with no products. -/
def docEmptyEx : SourceDoc :=
  { collection := { id := "c", schema_name := "sch", n_products := 0 }, products := [] }

/-- A filesystem already holding the artifact for output directory `out`. -/
def fsEx : FS := [("out/out.json", docEmptyEx)]

/-- A source-collection document holding one raw product record. -/
def docOneEx : SourceDoc :=
  { collection := { id := "c", schema_name := "sch", n_products := 1 },
    products := [[("k", "v")]] }

/-- A source-collection document holding a good record then a bad one. -/
def docBadEx : SourceDoc :=
  { collection := { id := "c", schema_name := "sch", n_products := 2 },
    products := [[("k", "v")], []] }

/-- A parser that accepts every raw record, resolving a fixed URL. -/
def cmoOkEx : RawRecord → String → String → Except String ProductMetadata :=
  fun _ _ _ => .ok { download_url := "http://psup.example/files/example.nc" }

/-- A parser that rejects the empty raw record. -/
def cmoFailEx : RawRecord → String → String → Except String ProductMetadata :=
  fun r _ _ =>
    if r = [] then .error "validation error"
    else .ok { download_url := "http://psup.example/files/example.nc" }

/-! ### Claim C1: malformed service replies in `download_collection` -/

/-- C1 (code bug): when an HTTP-ok reply lacks the expected key, the
source constructs `Exception('Invalid PSUP response: no "..." key
found.')` without raising it, so the call instead dies with a `NameError`
on the unbound local (`n_products`, resp. `records`) — not with the
malformed-service-response error; when the HTTP request itself fails the
malformed-response error IS raised.  In all three cases no
source-collection document is written. -/
theorem C1_missing_raise_evaluation :
    (download_collection "c" serviceNoTotal "sch" "out" false [] =
      { fs := [], queries := [0], outcome := .raised (.nameError "n_products") }) ∧
    (download_collection "c" serviceNoData "sch" "out" false [] =
      { fs := [], queries := [0, 2], outcome := .raised (.nameError "records") }) ∧
    (download_collection "c" serviceDown "sch" "out" false [] =
      { fs := [], queries := [0],
        outcome := .raised (.invalidResponse "Invalid PSUP response.") }) ∧
    (∀ msg, DCOutcome.raised (.nameError "n_products") ≠ .raised (.invalidResponse msg)) := by
  refine ⟨rfl, rfl, rfl, ?_⟩
  intro msg h
  simp at h

/-! ### Claim C5: idempotent short-circuit of `download_collection` -/

/-- C5: when the source-collection artifact already exists and `overwrite`
is false, `download_collection` issues no network query, leaves the
filesystem unchanged, and reports that no work was done. -/
theorem C5_download_collection_noop (collection_id : String)
    (service : Int → PsupResponse) (metadata_schema output_dir : String) (fs : FS)
    (h : fsExists fs (output_dir ++ "/" ++ stem output_dir ++ ".json") = true) :
    download_collection collection_id service metadata_schema output_dir false fs =
      { fs := fs, queries := [], outcome := .alreadyExists } := by
  simp [download_collection, h]

/-- C5 (witness): the no-op short-circuit at a concrete filesystem that
already holds `out/out.json`. -/
theorem C5_witness :
    download_collection "c" serviceEmpty "sch" "out" false fsEx =
      { fs := fsEx, queries := [], outcome := .alreadyExists } :=
  C5_download_collection_noop "c" serviceEmpty "sch" "out" fsEx (by decide)

/-! ### Claim C6: all-or-nothing parsing in `read_products_metadata` -/

lemma parseProducts_none {μ : Type} (parse : RawRecord → Except String μ)
    (l : List RawRecord) (h : ∃ r ∈ l, ∃ e, parse r = .error e) :
    parseProducts parse l = none := by
  induction l with
  | nil => simp at h
  | cons r rest ih =>
      obtain ⟨r0, hr0, e, he⟩ := h
      cases hp : parse r with
      | error e2 => simp [parseProducts, hp]
      | ok m =>
          rcases List.mem_cons.mp hr0 with h0 | h0
          · subst h0
            rw [hp] at he
            exact absurd he (by simp)
          · have : parseProducts parse rest = none := ih ⟨r0, h0, e, he⟩
            simp [parseProducts, hp, this]

lemma parseProducts_length {μ : Type} (parse : RawRecord → Except String μ)
    (l : List RawRecord) (ms : List μ) (h : parseProducts parse l = some ms) :
    ms.length = l.length := by
  induction l generalizing ms with
  | nil =>
      simp [parseProducts] at h
      simp [← h]
  | cons r rest ih =>
      cases hp : parse r with
      | error e => simp [parseProducts, hp] at h
      | ok m =>
          cases hrest : parseProducts parse rest with
          | none => simp [parseProducts, hp, hrest] at h
          | some ms2 =>
              simp [parseProducts, hp, hrest] at h
              subst h
              simp [ih ms2 hrest]

/-- C6: if any stored raw record fails validation, `read_products_metadata`
returns no list at all; and whenever it does return a list, that list has
one entry per stored record — it never returns a partial list. -/
theorem C6_read_products_metadata_all_or_nothing {μ : Type}
    (cmo : RawRecord → String → String → Except String μ) (doc : SourceDoc) :
    ((∃ r ∈ doc.products, ∃ e, cmo r doc.collection.schema_name "item" = .error e) →
      read_products_metadata cmo doc = none) ∧
    (∀ ms, read_products_metadata cmo doc = some ms →
      ms.length = doc.products.length) := by
  constructor
  · intro h
    exact parseProducts_none _ _ h
  · intro ms h
    exact parseProducts_length _ _ ms h

/-- C6 (witness): a batch whose second record fails validation yields no
list. -/
theorem C6_witness : read_products_metadata cmoFailEx docBadEx = none :=
  (C6_read_products_metadata_all_or_nothing cmoFailEx docBadEx).1
    ⟨[], by simp [docBadEx], "validation error", rfl⟩

/-! ### Claims C4 and C9: `download_data_files` -/

/-- The report `download_data_files_step` emits for one product, as a pure
function of the data-directory contents (which the loop never changes,
the fetch being disabled in the source). -/
def stepReport (data_dir : String) (overwrite : Bool) (dataFiles : List String)
    (pm : ProductMetadata) : DLReport :=
  let fname := lastSegment pm.download_url
  if !(data_dir ++ "/" ++ fname ∈ dataFiles : Bool) || overwrite then .done fname
  else .fileExists fname

lemma download_data_files_step_eq (data_dir : String) (overwrite : Bool)
    (st : DDFState) (pm : ProductMetadata) :
    download_data_files_step data_dir overwrite st pm =
      { dataFiles := st.dataFiles,
        reports := st.reports ++ [stepReport data_dir overwrite st.dataFiles pm] } := by
  unfold download_data_files_step stepReport
  by_cases hc :
      (!(data_dir ++ "/" ++ lastSegment pm.download_url ∈ st.dataFiles : Bool)
        || overwrite) = true
  · simp only [hc, if_true]
  · simp only [Bool.not_eq_true] at hc
    simp only [hc, Bool.false_eq_true, if_false]

lemma foldl_step_spec (data_dir : String) (overwrite : Bool)
    (l : List ProductMetadata) (fs : List String) (rs : List DLReport) :
    l.foldl (download_data_files_step data_dir overwrite)
        { dataFiles := fs, reports := rs } =
      { dataFiles := fs, reports := rs ++ l.map (stepReport data_dir overwrite fs) } := by
  induction l generalizing rs with
  | nil => simp
  | cons pm rest ih =>
      rw [List.foldl_cons, download_data_files_step_eq]
      simp only [List.map_cons]
      rw [ih]
      simp

/-- C4 (code bug evaluation): for a product whose file is absent from the
`data/` directory, `download_data_files` with `overwrite = false` reports
`DONE` yet creates no file — the `urlretrieve` call of the source is
commented out, so the `data/` directory contents are unchanged and the
claimed fetch never happens. -/
theorem C4_no_fetch_evaluation :
    download_data_files cmoOkEx "out/out.json" docOneEx [] false =
      .processed { dataFiles := [], reports := [.done "example.nc"] } ∧
    ¬ ("out/data/example.nc" ∈ ([] : List String)) := by
  exact ⟨rfl, by simp⟩

/-- C9: for every product in the processed batch whose derived file path
already exists in the `data/` directory, `download_data_files` with
`overwrite = false` reports that the file exists and performs no fetch
(the directory contents are unchanged). -/
theorem C9_download_skip_existing
    (cmo : RawRecord → String → String → Except String ProductMetadata)
    (source_collection_file : String) (doc : SourceDoc) (dataFiles : List String)
    (products : List ProductMetadata) (i : Nat)
    (hp : read_products_metadata cmo doc = some products)
    (hi : i < (products.take MAX_N_PRODUCTS).length)
    (hex : (parentDir source_collection_file ++ "/data" ++ "/" ++
        lastSegment ((products.take MAX_N_PRODUCTS).get ⟨i, hi⟩).download_url)
        ∈ dataFiles) :
    ∃ st, download_data_files cmo source_collection_file doc dataFiles false =
        .processed st ∧
      st.dataFiles = dataFiles ∧
      st.reports.get? i = some (.fileExists
        (lastSegment ((products.take MAX_N_PRODUCTS).get ⟨i, hi⟩).download_url)) := by
  have hne : products ≠ [] := by
    intro h0
    rw [h0] at hi
    simp [MAX_N_PRODUCTS] at hi
  refine ⟨{ dataFiles := dataFiles,
            reports := (products.take MAX_N_PRODUCTS).map
              (stepReport (parentDir source_collection_file ++ "/data") false dataFiles) },
          ?_, rfl, ?_⟩
  · unfold download_data_files
    rw [hp]
    simp only [hne, if_false, reduceCtorEq]
    rw [foldl_step_spec]
    simp
  · rw [List.get?_map, List.get?_eq_get hi]
    simp only [Option.map_some']
    congr 1
    unfold stepReport
    have hmem : ((parentDir source_collection_file ++ "/data" ++ "/" ++
        lastSegment ((products.take MAX_N_PRODUCTS).get ⟨i, hi⟩).download_url)
        ∈ dataFiles : Bool) = true := by
      exact decide_eq_true hex
    simp [hmem]
    simpa using hex

/-- C9 (witness): a product resolving to `example.nc` with
`out/data/example.nc` already present is reported as existing and the
directory contents stay unchanged. -/
theorem C9_witness :
    ∃ st, download_data_files cmoOkEx "out/out.json" docOneEx
        ["out/data/example.nc"] false = .processed st ∧
      st.dataFiles = ["out/data/example.nc"] ∧
      st.reports.get? 0 = some (.fileExists "example.nc") :=
  C9_download_skip_existing cmoOkEx "out/out.json" docOneEx ["out/data/example.nc"]
    [{ download_url := "http://psup.example/files/example.nc" }] 0 rfl
    (by decide) (by decide)

end Labtools
